import Mathlib

/-!
Verification of the KNavalBattle.js message codec (`src/message.ts`) and
session state machine (`NavalClient`).

The codec is modelled at the level of the parsed markup object: `toXML`
builds a JS object handed to the XML builder, and `fromXML` reads the
object returned by the XML parser.  We embed that object as `KDoc`
(root `kmessage` node optional, children optional), treating the XML
string layer (builder/parser, including attribute stringification via
`toString`/`parseInt`) as the identity on this object.  JS truthiness
tests in the decoder are modelled exactly (`undefined` and `0` falsy).
-/

/-- One ship class inside a GameOptions message (`ShipDefinition` in
`message.ts`). -/
structure ShipDefinition where
  name : String
  plural : String
  number : Nat
  size : Nat
deriving DecidableEq, Repr

/-- The derived `fieldState` of a `NotificationMessage`. -/
inductive FieldState where
  | Hit
  | Miss
  | Sink
deriving DecidableEq, Repr

/-- The ten message variants of `message.ts`, each carrying exactly the
fields its class stores.  `notification` stores the derived `fieldState`
and the optional sink span, as the `NotificationMessage` class does. -/
inductive Message where
  | header (protocolVersion clientName : String) (clientVersion : Nat)
      (clientDescription : String)
  | reject (versionMismatch : Bool) (reason : String)
  | nick (nickname : String)
  | begin
  | move (x y : Nat)
  | notification (x y : Nat) (fieldState : FieldState)
      (sinkCoordinates : Option ((Nat × Nat) × (Nat × Nat)))
  | gameOver
  | restart
  | chat (text nickname : String)
  | gameOptions (enabledAdjacentShips allowMultipleOfSame : Bool)
      (longestShip boardWidth boardHeight : Nat)
      (shipDefinitions : List ShipDefinition)
deriving DecidableEq, Repr

/-- The `NotificationMessage` constructor: computes `fieldState` from the
wire `fieldstate` code and the `death` flag. -/
def mkNotification (x y fieldstate : Nat) (death : Bool)
    (sinkCoordinates : Option ((Nat × Nat) × (Nat × Nat))) : Message :=
  Message.notification x y
    (if fieldstate = 99 then FieldState.Miss
     else if death then FieldState.Sink else FieldState.Hit)
    sinkCoordinates

/-- One `<ships .../>` node of a GameOptions document: all four values are
attributes (`$name`, `$number`, `$pluralName`, `$size`); the numeric ones
travel through `toString`/`parseInt`, folded into identity here. -/
structure ShipNode where
  name : String
  number : Nat
  pluralName : String
  size : Nat
deriving DecidableEq, Repr

/-- The dual-packed `oneOrSeveralShips` node: the `$longestShip` attribute
carries the longest-ship length while the node text carries the
allow-multiple-of-same-ship flag. -/
structure OneOrSeveralShips where
  longestShip : Nat
  text : Bool
deriving DecidableEq, Repr

/-- The parsed `kmessage` node.  Children that a given variant does not
write are absent (`none`), mirroring the sparse JS object; `msgtype` is
always present (its absence would crash `fromXML` before any decoding). -/
structure KMessage where
  msgtypeText : Nat
  msgtypeType : String
  protocolVersion : Option String
  clientName : Option String
  clientVersion : Option Nat
  clientDescription : Option String
  versionMismatch : Option Bool
  reason : Option String
  nickname : Option String
  chat : Option String
  fieldx : Option Nat
  fieldy : Option Nat
  fieldstate : Option Nat
  death : Option Bool
  xstart : Option Nat
  xstop : Option Nat
  ystart : Option Nat
  ystop : Option Nat
  enabledAdjacentShips : Option Bool
  oneOrSeveralShips : Option OneOrSeveralShips
  boardWidth : Option Nat
  boardHeight : Option Nat
  ships : Option (List ShipNode)
deriving DecidableEq, Repr

/-- A parsed document: `fromXML` first checks `parsed.kmessage` for
truthiness, so the root node is optional. -/
structure KDoc where
  kmessage : Option KMessage
deriving DecidableEq, Repr

/-- A `kmessage` node with no children, used as the base of every encoded
document. -/
def emptyKM : KMessage :=
  { msgtypeText := 0, msgtypeType := ""
  , protocolVersion := none, clientName := none, clientVersion := none
  , clientDescription := none
  , versionMismatch := none, reason := none
  , nickname := none, chat := none
  , fieldx := none, fieldy := none, fieldstate := none, death := none
  , xstart := none, xstop := none, ystart := none, ystop := none
  , enabledAdjacentShips := none, oneOrSeveralShips := none
  , boardWidth := none, boardHeight := none, ships := none }

/-- JS truthiness of an optional number: `undefined` and `0` are falsy.
This is the test `fromXML` applies to each of the four sink-span fields. -/
def truthyNat : Option Nat → Bool
  | none => false
  | some n => n != 0

/-- The object each `toXML` method hands to the XML builder.  A Sink
notification dereferences `sinkCoordinates!`; when the span is absent the
four corner children are absent. -/
def encode : Message → KDoc
  | Message.header pv cn cv cd =>
      ⟨some { emptyKM with
          msgtypeText := 0, msgtypeType := "Header",
          protocolVersion := some pv, clientName := some cn,
          clientVersion := some cv, clientDescription := some cd }⟩
  | Message.reject vm reason =>
      ⟨some { emptyKM with
          msgtypeText := 1, msgtypeType := "Reject",
          versionMismatch := some vm, reason := some reason }⟩
  | Message.nick nm =>
      ⟨some { emptyKM with
          msgtypeText := 2, msgtypeType := "Nick",
          nickname := some nm }⟩
  | Message.begin =>
      ⟨some { emptyKM with msgtypeText := 3, msgtypeType := "Begin" }⟩
  | Message.move x y =>
      ⟨some { emptyKM with
          msgtypeText := 4, msgtypeType := "Move",
          fieldx := some x, fieldy := some y }⟩
  | Message.notification x y fs sc =>
      if fs ≠ FieldState.Sink then
        ⟨some { emptyKM with
            msgtypeText := 5, msgtypeType := "Notification",
            fieldx := some x, fieldy := some y,
            fieldstate := some (if fs = FieldState.Miss then 99 else 1) }⟩
      else
        ⟨some { emptyKM with
            msgtypeText := 5, msgtypeType := "Notification",
            fieldx := some x, fieldy := some y, fieldstate := some 1,
            death := some true,
            xstart := sc.map (fun c => c.1.1),
            xstop := sc.map (fun c => c.2.1),
            ystart := sc.map (fun c => c.1.2),
            ystop := sc.map (fun c => c.2.2) }⟩
  | Message.gameOver =>
      ⟨some { emptyKM with msgtypeText := 6, msgtypeType := "GameOver" }⟩
  | Message.restart =>
      ⟨some { emptyKM with msgtypeText := 7, msgtypeType := "Restart" }⟩
  | Message.chat text nm =>
      ⟨some { emptyKM with
          msgtypeText := 8, msgtypeType := "Chat",
          chat := some text, nickname := some nm }⟩
  | Message.gameOptions adj multi longest w h ships =>
      ⟨some { emptyKM with
          msgtypeText := 9, msgtypeType := "GameOptions",
          enabledAdjacentShips := some adj,
          oneOrSeveralShips := some ⟨longest, multi⟩,
          boardWidth := some w, boardHeight := some h,
          ships := some (ships.map fun d =>
            ⟨d.name, d.number, d.plural, d.size⟩) }⟩

deriving instance DecidableEq for Except

/-- Decode failure, thrown by `Message.fromXML`. -/
inductive DecodeError where
  | invalidFormatting
  | unknownType (code : Nat)
deriving DecidableEq, Repr

/-- The dispatch of `Message.fromXML`: reject a missing root, switch on the
numeric type code (the TS `switch` is written as an equality chain in its
case order), and otherwise build the variant from the children.  Children
read through unchecked casts default like `undefined` coercions. -/
def decode (doc : KDoc) : Except DecodeError Message :=
  match doc.kmessage with
  | none => Except.error DecodeError.invalidFormatting
  | some km =>
    if km.msgtypeText = 0 then
      Except.ok (Message.header (km.protocolVersion.getD "")
        (km.clientName.getD "") (km.clientVersion.getD 0)
        (km.clientDescription.getD ""))
    else if km.msgtypeText = 9 then
      Except.ok (Message.gameOptions
        (km.enabledAdjacentShips.getD false)
        ((km.oneOrSeveralShips.getD ⟨0, false⟩).text)
        ((km.oneOrSeveralShips.getD ⟨0, false⟩).longestShip)
        (km.boardWidth.getD 0) (km.boardHeight.getD 0)
        ((km.ships.getD []).map fun x =>
          ⟨x.name, x.pluralName, x.number, x.size⟩))
    else if km.msgtypeText = 2 then
      Except.ok (Message.nick (km.nickname.getD ""))
    else if km.msgtypeText = 8 then
      Except.ok (Message.chat (km.chat.getD "") (km.nickname.getD ""))
    else if km.msgtypeText = 3 then
      Except.ok Message.begin
    else if km.msgtypeText = 4 then
      Except.ok (Message.move (km.fieldx.getD 0) (km.fieldy.getD 0))
    else if km.msgtypeText = 5 then
      Except.ok (mkNotification (km.fieldx.getD 0) (km.fieldy.getD 0)
        (km.fieldstate.getD 0) (km.death.getD false)
        (if truthyNat km.xstart && truthyNat km.xstop &&
            truthyNat km.ystart && truthyNat km.ystop then
          some ((km.xstart.getD 0, km.ystart.getD 0),
                (km.xstop.getD 0, km.ystop.getD 0))
        else none))
    else if km.msgtypeText = 6 then
      Except.ok Message.gameOver
    else if km.msgtypeText = 7 then
      Except.ok Message.restart
    else if km.msgtypeText = 1 then
      Except.ok (Message.reject (km.versionMismatch.getD false)
        (km.reason.getD ""))
    else
      Except.error (DecodeError.unknownType km.msgtypeText)

/-- The `GameState` enum of the client module. -/
inductive GameState where
  | DISCONNECTED
  | SHIP_SETUP
  | FIRE_SHIPS_SELF
  | AWAIT_RESPONSE_SELF
  | FIRE_SHIPS_OTHER
  | AWAIT_RESPONSE_OTHER
  | GAME_OVER
deriving DecidableEq, Repr

/-- The `Player` value type. -/
structure Player where
  me : Bool
  nickname : String
deriving DecidableEq, Repr

/-- The client's `gameOptions` record. -/
structure GameOptionsRec where
  adjacentShips : Bool
  allowMultipleOfSame : Bool
  longestShip : Nat
  boardWidth : Nat
  boardHeight : Nat
  shipDefinitions : List ShipDefinition
deriving DecidableEq, Repr

/-- The mutable state of a `NavalClient`: private `_gameState`, the
`firedAt` list, the optional `opponent`, and the coordinates of the
`waitForNotification` listeners currently registered on the `raw` event
(`pending`), kept in registration order. -/
structure ClientState where
  nickname : String
  gameState : GameState
  gameOptions : GameOptionsRec
  firedAt : List (Nat × Nat)
  opponent : Option Player
  pending : List (Nat × Nat)
deriving DecidableEq, Repr

/-- Observable actions of a client operation: writes to the socket,
events emitted to the consuming application, and promise resolutions of
suspended `sendFireAt` calls. -/
inductive Effect where
  | send (m : Message)
  | emitConnect (p : Player)
  | emitChat (m : Message)
  | emitBegin (restartDetected : Bool)
  | emitMove (x y : Nat)
  | emitCanFire
  | emitGameOver (winner : Option Player)
  | resolvePending (x y : Nat) (m : Message)
deriving DecidableEq, Repr

/-- Errors thrown synchronously (or used to reject the returned promise)
by the client's local operations. -/
inductive ClientError where
  | protocolViolation (msg : String)
deriving DecidableEq, Repr

/-- The ship classes installed by the `NavalClient` constructor. -/
def defaultShipDefinitions : List ShipDefinition :=
  [ ⟨"minesweeper", "minesweepers", 1, 1⟩
  , ⟨"frigate", "frigates", 1, 2⟩
  , ⟨"cruise", "cruises", 1, 3⟩
  , ⟨"carrier", "carriers", 1, 4⟩ ]

/-- A freshly constructed client (`new NavalClient()`). -/
def baseState : ClientState :=
  { nickname := "KNavalBattle.js"
  , gameState := GameState.DISCONNECTED
  , gameOptions :=
      ⟨true, false, 4, 10, 10, defaultShipDefinitions⟩
  , firedAt := []
  , opponent := none
  , pending := [] }

/-- The header this client replies with on receiving a `HeaderMessage`. -/
def myHeader : Message :=
  Message.header "0.1.0" "KBattleship" 4 "The Naval Battle game"

/-- Does this inbound message satisfy the guard of a `waitForNotification`
listener registered for coordinate `p`? -/
def matchesNotif (m : Message) (p : Nat × Nat) : Bool :=
  match m with
  | Message.notification x y _ _ => x == p.1 && y == p.2
  | _ => false

/-- Delivery of one inbound message to the `raw` listeners: every
registered `waitForNotification` whose coordinate matches pushes its
coordinate onto `firedAt`, removes itself, and resolves its promise;
non-matching listeners stay registered. -/
def processRaw (m : Message) (s : ClientState) : ClientState × List Effect :=
  ({ s with
      pending := s.pending.filter (fun p => !matchesNotif m p),
      firedAt := s.firedAt ++ s.pending.filter (fun p => matchesNotif m p) },
   (s.pending.filter (fun p => matchesNotif m p)).map
     (fun p => Effect.resolvePending p.1 p.2 m))

/-- The body of `NavalClient.#handleMessage`, dispatching on the decoded
message's class.  Notification, Restart and Reject messages fall through
every branch and leave the state untouched. -/
def handleMessage (m : Message) (s : ClientState) :
    ClientState × List Effect :=
  match m with
  | Message.header _ _ _ _ => (s, [Effect.send myHeader])
  | Message.gameOptions adj multi longest w h ships =>
      ({ s with gameOptions := ⟨adj, multi, longest, w, h, ships⟩ },
       [Effect.send (Message.gameOptions adj multi longest w h ships)])
  | Message.nick nm =>
      ({ s with
          gameState := GameState.SHIP_SETUP,
          opponent := some ⟨false, nm⟩ },
       [Effect.send (Message.nick s.nickname), Effect.emitConnect ⟨false, nm⟩])
  | Message.chat text nm => (s, [Effect.emitChat (Message.chat text nm)])
  | Message.begin =>
      ({ s with firedAt := [], gameState := GameState.FIRE_SHIPS_OTHER },
       [Effect.send Message.begin,
        Effect.emitBegin (s.gameState != GameState.SHIP_SETUP)])
  | Message.move x y =>
      ({ s with gameState := GameState.AWAIT_RESPONSE_SELF },
       [Effect.emitMove x y])
  | Message.gameOver =>
      ({ s with gameState := GameState.GAME_OVER },
       [Effect.emitGameOver (some ⟨true, s.nickname⟩)])
  | Message.notification _ _ _ _ => (s, [])
  | Message.restart => (s, [])
  | Message.reject _ _ => (s, [])

/-- The socket `data` handler: emit `raw` (running every registered
`waitForNotification` listener) and then run `#handleMessage`. -/
def handleData (m : Message) (s : ClientState) : ClientState × List Effect :=
  ((handleMessage m (processRaw m s).1).1,
   (processRaw m s).2 ++ (handleMessage m (processRaw m s).1).2)

/-- `NavalClient.sendFireAt`'s synchronous part: guard the phase, guard
against an already-fired coordinate, then register a pending listener and
write the Move.  Note that neither guard nor success changes `_gameState`
or `firedAt`. -/
def sendFireAt (pos : Nat × Nat) (s : ClientState) :
    Except ClientError (ClientState × List Effect) :=
  if s.gameState ≠ GameState.FIRE_SHIPS_SELF then
    Except.error (ClientError.protocolViolation "cannot fire at ships right now")
  else if s.firedAt.any (fun p => p.1 == pos.1 && p.2 == pos.2) then
    Except.error (ClientError.protocolViolation "already fired in this position")
  else
    Except.ok ({ s with pending := s.pending ++ [pos] },
      [Effect.send (Message.move pos.1 pos.2)])

/-- `NavalClient.sendMoveResponse`: legal only in `AWAIT_RESPONSE_SELF`. -/
def sendMoveResponse (n : Message) (s : ClientState) :
    Except ClientError (ClientState × List Effect) :=
  if s.gameState ≠ GameState.AWAIT_RESPONSE_SELF then
    Except.error (ClientError.protocolViolation "cannot send response right now")
  else
    Except.ok ({ s with gameState := GameState.FIRE_SHIPS_SELF },
      [Effect.send n, Effect.emitCanFire])

/-- `NavalClient.sendGameOver`: forbidden exactly in `FIRE_SHIPS_SELF`;
otherwise emits the `gameOver` event with the (possibly absent) opponent
and writes a GameOver message, leaving the state unchanged. -/
def sendGameOver (s : ClientState) :
    Except ClientError (ClientState × List Effect) :=
  if s.gameState = GameState.FIRE_SHIPS_SELF then
    Except.error (ClientError.protocolViolation
      "you can only send game over after sending a move response")
  else
    Except.ok (s, [Effect.emitGameOver s.opponent, Effect.send Message.gameOver])

/-- The socket `close` handler registered by `NavalClient.disconnect`:
it only rewrites `_gameState`. -/
def handleClose (s : ClientState) : ClientState :=
  { s with gameState := GameState.DISCONNECTED }

/-- Round-trip of a ship-definition list through the wire `ships` node
list (`$name`/`$number`/`$pluralName`/`$size` attributes). -/
theorem shipList_roundtrip (l : List ShipDefinition) :
    ((l.map fun d => (⟨d.name, d.number, d.plural, d.size⟩ : ShipNode)).map
      fun x => (⟨x.name, x.pluralName, x.number, x.size⟩ : ShipDefinition)) = l := by
  induction l with
  | nil => rfl
  | cons hd tl ih => simp [ih]

/-- Guard under which the round-trip law holds for the Notification
variant: the sink span is present exactly for Sink outcomes, and all four
corner coordinates are nonzero (hence JS-truthy).  Every other variant is
unrestricted. -/
def sinkFieldsSafe : Message → Bool
  | Message.notification _ _ fs sc =>
      match fs, sc with
      | FieldState.Sink, some c =>
          c.1.1 != 0 && c.1.2 != 0 && c.2.1 != 0 && c.2.2 != 0
      | FieldState.Sink, none => false
      | _, none => true
      | _, some _ => false
  | _ => true

/-- Claim C1 (counterexample): the round-trip law fails as stated.  A Sink
notification whose ship lies in column 0 encodes its four corner fields,
but `fromXML` tests them for JS-truthiness, so the `xstart = 0` corner
makes the decoder drop the whole sink span. -/
theorem C1_roundtrip_cex :
    decode (encode (Message.notification 0 2 FieldState.Sink
      (some ((0, 2), (0, 4))))) ≠
    Except.ok (Message.notification 0 2 FieldState.Sink
      (some ((0, 2), (0, 4)))) := by decide

/-- Claim C1 (amended): `decode (encode m) = m` for every message variant
and all field values, provided the Notification variant carries a sink
span exactly when its field state is Sink and the four corner coordinates
are all nonzero. -/
theorem C1_roundtrip_amended (m : Message) (h : sinkFieldsSafe m = true) :
    decode (encode m) = Except.ok m := by
  cases m with
  | header pv cn cv cd => rfl
  | reject vm reason => rfl
  | nick nm => rfl
  | begin => rfl
  | move x y => rfl
  | gameOver => rfl
  | restart => rfl
  | chat t nm => rfl
  | gameOptions adj multi longest w ht ships =>
      have hstep : decode (encode (Message.gameOptions adj multi longest w ht ships)) =
          Except.ok (Message.gameOptions adj multi longest w ht
            (((ships.map fun d => (⟨d.name, d.number, d.plural, d.size⟩ : ShipNode))).map
              fun x => (⟨x.name, x.pluralName, x.number, x.size⟩ : ShipDefinition))) := rfl
      rw [hstep, shipList_roundtrip]
  | notification x y fs sc =>
      cases fs with
      | Hit =>
          cases sc with
          | none => rfl
          | some c => simp [sinkFieldsSafe] at h
      | Miss =>
          cases sc with
          | none => rfl
          | some c => simp [sinkFieldsSafe] at h
      | Sink =>
          cases sc with
          | none => simp [sinkFieldsSafe] at h
          | some c =>
              obtain ⟨⟨a, b⟩, cc, d⟩ := c
              simp only [sinkFieldsSafe, Bool.and_eq_true, bne_iff_ne, ne_eq] at h
              simp [encode, decode, mkNotification, truthyNat,
                h.1.1.1, h.1.1.2, h.1.2, h.2]

/-- Claim C1 (witness): the amended round-trip law applied to a concrete
Sink notification with nonzero corner coordinates. -/
theorem C1_roundtrip_witness :
    sinkFieldsSafe (Message.notification 2 3 FieldState.Sink
      (some ((2, 2), (2, 4)))) = true ∧
    decode (encode (Message.notification 2 3 FieldState.Sink
      (some ((2, 2), (2, 4))))) =
      Except.ok (Message.notification 2 3 FieldState.Sink
        (some ((2, 2), (2, 4)))) :=
  ⟨by decide, C1_roundtrip_amended (Message.notification 2 3 FieldState.Sink
    (some ((2, 2), (2, 4)))) (by decide)⟩

/-- Claim C2: a fire request at a coordinate already in `firedAt`, or made
while the phase is not `FIRE_SHIPS_SELF`, is rejected synchronously.  In
this functional model a rejected call returns only the error, so it
carries no state change and writes no Move message. -/
theorem C2_fire_rejected (s : ClientState) (pos : Nat × Nat)
    (h : s.gameState ≠ GameState.FIRE_SHIPS_SELF ∨ pos ∈ s.firedAt) :
    ∃ e, sendFireAt pos s = Except.error e := by
  by_cases hg : s.gameState = GameState.FIRE_SHIPS_SELF
  · rcases h with h | h
    · exact absurd hg h
    · refine ⟨ClientError.protocolViolation "already fired in this position", ?_⟩
      have hany : s.firedAt.any (fun p => p.1 == pos.1 && p.2 == pos.2) = true := by
        refine List.any_eq_true.mpr ⟨pos, h, ?_⟩
        simp
      simp [sendFireAt, hg, hany]
  · exact ⟨ClientError.protocolViolation "cannot fire at ships right now",
      by simp [sendFireAt, hg]⟩

/-- Claim C2 (witness): firing from a freshly constructed client, whose
phase is `DISCONNECTED`, is rejected. -/
theorem C2_fire_rejected_witness :
    ∃ e, sendFireAt (1, 1) baseState = Except.error e :=
  C2_fire_rejected baseState (1, 1) (Or.inl (by decide))

/-- A client whose phase is `FIRE_SHIPS_SELF`. -/
def fireSelfState : ClientState :=
  { baseState with gameState := GameState.FIRE_SHIPS_SELF }

/-- Claim C3 (code-bug demonstration): after a successful fire at (1,1)
the phase is still `FIRE_SHIPS_SELF` — `sendFireAt` never assigns
`AWAIT_RESPONSE_OTHER`, which is declared in the `GameState` enum but
never entered — and a second fire at (2,2) while the first shot is still
pending is accepted, leaving two pending shots. -/
theorem C3_pending_not_exclusive :
    sendFireAt (1, 1) fireSelfState =
      Except.ok ({ fireSelfState with pending := [(1, 1)] },
        [Effect.send (Message.move 1 1)]) ∧
    ({ fireSelfState with pending := [(1, 1)] } : ClientState).gameState ≠
      GameState.AWAIT_RESPONSE_OTHER ∧
    sendFireAt (2, 2) { fireSelfState with pending := [(1, 1)] } =
      Except.ok ({ fireSelfState with pending := [(1, 1), (2, 2)] },
        [Effect.send (Message.move 2 2)]) :=
  ⟨rfl, by decide, rfl⟩

/-- Claim C4: with a single pending shot at (x,y) and the phase left at
`FIRE_SHIPS_SELF` by the fire call, an inbound Notification for a
different coordinate resolves nothing and changes nothing; a subsequent
Notification for (x,y) resolves the shot exactly once (a single
`resolvePending` effect), pushes (x,y) onto `firedAt`, empties the
pending list, and leaves the phase at `FIRE_SHIPS_SELF`. -/
theorem C4_correlation (s : ClientState) (x y x' y' : Nat)
    (fs fs' : FieldState) (sc sc' : Option ((Nat × Nat) × (Nat × Nat)))
    (hpend : s.pending = [(x, y)])
    (hphase : s.gameState = GameState.FIRE_SHIPS_SELF)
    (hne : x' ≠ x ∨ y' ≠ y) :
    (handleData (Message.notification x' y' fs sc) s).1.pending = [(x, y)] ∧
    (handleData (Message.notification x' y' fs sc) s).1.firedAt = s.firedAt ∧
    (handleData (Message.notification x' y' fs sc) s).1.gameState =
      GameState.FIRE_SHIPS_SELF ∧
    (handleData (Message.notification x' y' fs sc) s).2 = [] ∧
    (handleData (Message.notification x y fs' sc')
        (handleData (Message.notification x' y' fs sc) s).1).1.pending = [] ∧
    (handleData (Message.notification x y fs' sc')
        (handleData (Message.notification x' y' fs sc) s).1).1.firedAt =
      s.firedAt ++ [(x, y)] ∧
    (handleData (Message.notification x y fs' sc')
        (handleData (Message.notification x' y' fs sc) s).1).1.gameState =
      GameState.FIRE_SHIPS_SELF ∧
    (handleData (Message.notification x y fs' sc')
        (handleData (Message.notification x' y' fs sc) s).1).2 =
      [Effect.resolvePending x y (Message.notification x y fs' sc')] := by
  have hm1 : matchesNotif (Message.notification x' y' fs sc) (x, y) = false := by
    rcases hne with h | h <;> simp [matchesNotif, h]
  have hm2 : matchesNotif (Message.notification x y fs' sc') (x, y) = true := by
    simp [matchesNotif]
  simp [handleData, processRaw, handleMessage, hpend, hphase, hm1, hm2]

/-- A client with a single pending shot at (3,4), as left by a successful
`sendFireAt (3,4)` from `FIRE_SHIPS_SELF`. -/
def pendingState : ClientState :=
  { baseState with gameState := GameState.FIRE_SHIPS_SELF, pending := [(3, 4)] }

/-- Claim C4 (witness): the correlation theorem at the spec's example — a
pending shot at (3,4), a Notification for (5,6), then one for (3,4). -/
theorem C4_correlation_witness :
    (handleData (Message.notification 5 6 FieldState.Miss none)
      pendingState).1.pending = [(3, 4)] ∧
    (handleData (Message.notification 5 6 FieldState.Miss none)
      pendingState).1.firedAt = pendingState.firedAt ∧
    (handleData (Message.notification 5 6 FieldState.Miss none)
      pendingState).1.gameState = GameState.FIRE_SHIPS_SELF ∧
    (handleData (Message.notification 5 6 FieldState.Miss none)
      pendingState).2 = [] ∧
    (handleData (Message.notification 3 4 FieldState.Hit none)
        (handleData (Message.notification 5 6 FieldState.Miss none)
          pendingState).1).1.pending = [] ∧
    (handleData (Message.notification 3 4 FieldState.Hit none)
        (handleData (Message.notification 5 6 FieldState.Miss none)
          pendingState).1).1.firedAt = pendingState.firedAt ++ [(3, 4)] ∧
    (handleData (Message.notification 3 4 FieldState.Hit none)
        (handleData (Message.notification 5 6 FieldState.Miss none)
          pendingState).1).1.gameState = GameState.FIRE_SHIPS_SELF ∧
    (handleData (Message.notification 3 4 FieldState.Hit none)
        (handleData (Message.notification 5 6 FieldState.Miss none)
          pendingState).1).2 =
      [Effect.resolvePending 3 4 (Message.notification 3 4 FieldState.Hit none)] :=
  C4_correlation pendingState 3 4 5 6 FieldState.Miss FieldState.Hit none none
    rfl rfl (Or.inl (by decide))

/-- Claim C5: processing a received Begin echoes the Begin back, clears
`firedAt`, moves the phase to `FIRE_SHIPS_OTHER`, and emits `begin` with
the restart flag — false exactly when the prior phase was `SHIP_SETUP`,
true for every other prior phase. -/
theorem C5_begin_processing (s : ClientState) :
    handleMessage Message.begin s =
      ({ s with firedAt := [], gameState := GameState.FIRE_SHIPS_OTHER },
       [Effect.send Message.begin,
        Effect.emitBegin (s.gameState != GameState.SHIP_SETUP)]) ∧
    ((s.gameState != GameState.SHIP_SETUP) = false ↔
      s.gameState = GameState.SHIP_SETUP) :=
  ⟨rfl, by simp⟩

/-- A client mid-game with a pending shot and a live opponent. -/
def closeState : ClientState :=
  { baseState with
      gameState := GameState.FIRE_SHIPS_SELF,
      pending := [(1, 1)],
      opponent := some ⟨false, "opponent"⟩ }

/-- Claim C6 (counterexample): the `close` handler only rewrites the
phase; at a state with a pending shot and a recorded opponent, the pending
shot survives unrejected and the opponent is not reset. -/
theorem C6_close_cex :
    (handleClose closeState).gameState = GameState.DISCONNECTED ∧
    ¬((handleClose closeState).pending = [] ∧
      (handleClose closeState).opponent = none) := by decide

/-- Claim C6 (amended): when the transport closes the session transitions
to `DISCONNECTED` from every phase, but outstanding pending shots are not
rejected and the opponent is not reset — both survive unchanged. -/
theorem C6_close_amended (s : ClientState) :
    (handleClose s).gameState = GameState.DISCONNECTED ∧
    (handleClose s).pending = s.pending ∧
    (handleClose s).opponent = s.opponent :=
  ⟨rfl, rfl, rfl⟩

/-- A client awaiting its own move response, with a live opponent —
a phase in which declaring game over is allowed. -/
def concedeState : ClientState :=
  { baseState with
      gameState := GameState.AWAIT_RESPONSE_SELF,
      opponent := some ⟨false, "opponent"⟩ }

/-- Claim C7 (counterexample): a declare-game-over call in an allowed
phase emits `gameOver` with the opponent as winner and writes the GameOver
message, but returns the state unchanged — the phase does not become
`GAME_OVER`. -/
theorem C7_gameover_cex :
    sendGameOver concedeState =
      Except.ok (concedeState,
        [Effect.emitGameOver (some ⟨false, "opponent"⟩),
         Effect.send Message.gameOver]) ∧
    concedeState.gameState ≠ GameState.GAME_OVER := by decide

/-- Claim C7 (amended): in any phase other than `FIRE_SHIPS_SELF` a local
declare-game-over call notifies `gameOver` with winner = opponent and
sends a GameOver message, leaving the phase (and all other state)
unchanged; in `FIRE_SHIPS_SELF` it fails synchronously and mutates
nothing. -/
theorem C7_gameover_amended (s : ClientState) :
    (s.gameState ≠ GameState.FIRE_SHIPS_SELF →
      sendGameOver s = Except.ok (s,
        [Effect.emitGameOver s.opponent, Effect.send Message.gameOver])) ∧
    (s.gameState = GameState.FIRE_SHIPS_SELF →
      ∃ e, sendGameOver s = Except.error e) := by
  constructor
  · intro h
    simp [sendGameOver, h]
  · intro h
    exact ⟨ClientError.protocolViolation
      "you can only send game over after sending a move response",
      by simp [sendGameOver, h]⟩

/-- Claim C7 (witness): the amended statement at a concrete allowed phase
and at the concrete forbidden phase. -/
theorem C7_gameover_witness :
    sendGameOver concedeState =
      Except.ok (concedeState,
        [Effect.emitGameOver concedeState.opponent,
         Effect.send Message.gameOver]) ∧
    ∃ e, sendGameOver fireSelfState = Except.error e :=
  ⟨(C7_gameover_amended concedeState).1 (by decide),
   (C7_gameover_amended fireSelfState).2 rfl⟩

/-- Claim C8: decoding fails with a `DecodeError` when the root
`kmessage` node is absent, and when the numeric type code is none of the
ten known codes 0–9; `decode` returns `Except`, so it never constructs a
message on the failure paths. -/
theorem C8_decode_failure (doc : KDoc) :
    (doc.kmessage = none →
      decode doc = Except.error DecodeError.invalidFormatting) ∧
    (∀ km, doc.kmessage = some km → 10 ≤ km.msgtypeText →
      decode doc = Except.error (DecodeError.unknownType km.msgtypeText)) := by
  constructor
  · intro h
    simp [decode, h]
  · intro km hkm hge
    have h0 : ¬ km.msgtypeText = 0 := by omega
    have h1 : ¬ km.msgtypeText = 1 := by omega
    have h2 : ¬ km.msgtypeText = 2 := by omega
    have h3 : ¬ km.msgtypeText = 3 := by omega
    have h4 : ¬ km.msgtypeText = 4 := by omega
    have h5 : ¬ km.msgtypeText = 5 := by omega
    have h6 : ¬ km.msgtypeText = 6 := by omega
    have h7 : ¬ km.msgtypeText = 7 := by omega
    have h8 : ¬ km.msgtypeText = 8 := by omega
    have h9 : ¬ km.msgtypeText = 9 := by omega
    simp [decode, hkm, h0, h1, h2, h3, h4, h5, h6, h7, h8, h9]

/-- A `kmessage` node carrying the unknown type code 42. -/
def unknownKM : KMessage := { emptyKM with msgtypeText := 42 }

/-- Claim C8 (witness): decode failure at a rootless document and at a
document with type code 42. -/
theorem C8_decode_failure_witness :
    decode ⟨none⟩ = Except.error DecodeError.invalidFormatting ∧
    decode ⟨some unknownKM⟩ = Except.error (DecodeError.unknownType 42) :=
  ⟨(C8_decode_failure ⟨none⟩).1 rfl,
   (C8_decode_failure ⟨some unknownKM⟩).2 unknownKM rfl (by decide)⟩

/-- Claim C9: a move response submitted while the phase is
`AWAIT_RESPONSE_SELF` writes the notification, moves the phase to
`FIRE_SHIPS_SELF` and emits `canFire`; in every other phase the call
fails synchronously with a protocol-violation error and, returning only
the error, mutates nothing. -/
theorem C9_move_response (s : ClientState) (n : Message) :
    (s.gameState = GameState.AWAIT_RESPONSE_SELF →
      sendMoveResponse n s =
        Except.ok ({ s with gameState := GameState.FIRE_SHIPS_SELF },
          [Effect.send n, Effect.emitCanFire])) ∧
    (s.gameState ≠ GameState.AWAIT_RESPONSE_SELF →
      ∃ e, sendMoveResponse n s = Except.error e) := by
  constructor
  · intro h
    simp [sendMoveResponse, h]
  · intro h
    exact ⟨ClientError.protocolViolation "cannot send response right now",
      by simp [sendMoveResponse, h]⟩

/-- Claim C9 (witness): the statement at the allowed phase
`AWAIT_RESPONSE_SELF` and at the disallowed phase `DISCONNECTED`. -/
theorem C9_move_response_witness :
    sendMoveResponse (Message.notification 2 2 FieldState.Miss none)
        concedeState =
      Except.ok ({ concedeState with gameState := GameState.FIRE_SHIPS_SELF },
        [Effect.send (Message.notification 2 2 FieldState.Miss none),
         Effect.emitCanFire]) ∧
    ∃ e, sendMoveResponse (Message.notification 2 2 FieldState.Miss none)
        baseState = Except.error e :=
  ⟨(C9_move_response concedeState
      (Message.notification 2 2 FieldState.Miss none)).1 rfl,
   (C9_move_response baseState
      (Message.notification 2 2 FieldState.Miss none)).2 (by decide)⟩

/-- Claim C10: `#handleMessage` handles a Nick message identically in
every phase — the statement quantifies over all states with no phase
hypothesis: it replies with the client's own Nick, sets the phase to
`SHIP_SETUP`, replaces the opponent by a non-self player carrying the
received nickname, and emits the `connect` notification. -/
theorem C10_nick_any_phase (s : ClientState) (nm : String) :
    handleMessage (Message.nick nm) s =
      ({ s with
          gameState := GameState.SHIP_SETUP,
          opponent := some ⟨false, nm⟩ },
       [Effect.send (Message.nick s.nickname),
        Effect.emitConnect ⟨false, nm⟩]) :=
  rfl
